import Mathlib

/-!
Verification of the job-search aggregation pipeline
(`simple_job_search.py` / `simple_web_app.py`).

The Python source is shallowly embedded below: record dictionaries become
the `Job` structure, per-site card parsers become functions from card
structures (holding the text found by the CSS-selector loops) to
`Option Job`, and the network-facing extractors take an explicit
`FetchOutcome` describing what the live fetch produced.  Python string
operations (`lower`, `strip`, `startswith`, `in`, `replace`, slicing)
are modelled character-wise on `String.data`.
-/

/-- Character-wise lower-casing, modelling Python `str.lower()` on the
ASCII range that the program's keys and source tags use. -/
def pyLowerStr (s : String) : String :=
  String.mk (s.data.map Char.toLower)

/-- The whitespace characters stripped by Python `str.strip()`. -/
def isPySpace (c : Char) : Bool :=
  c == ' ' || c == '\t' || c == '\n' || c == '\r' || c == '\x0b' || c == '\x0c'

/-- Python `str.strip()`: drop leading and trailing whitespace. -/
def pyStrip (s : String) : String :=
  String.mk (((s.data.dropWhile isPySpace).reverse.dropWhile isPySpace).reverse)

/-- Is `p` a (character) prefix of `s`? -/
def listPrefixEq : List Char → List Char → Bool
  | [], _ => true
  | _ :: _, [] => false
  | a :: as, b :: bs => a == b && listPrefixEq as bs

/-- Does `hay` contain `needle` as a contiguous substring (Python `in`)? -/
def listContainsSub (needle : List Char) : List Char → Bool
  | [] => listPrefixEq needle []
  | c :: cs => listPrefixEq needle (c :: cs) || listContainsSub needle cs

/-- Python `needle in hay` on strings. -/
def strContains (needle hay : String) : Bool :=
  listContainsSub needle.data hay.data

/-- Python `s.startswith(p)`. -/
def pyStartswith (p s : String) : Bool :=
  listPrefixEq p.data s.data

/-- Python `s.replace(old, repl)` for a single-character `old`, the only
form the program uses (`' '` and `'/'`). -/
def pyReplace (s : String) (old : Char) (repl : String) : String :=
  String.mk (s.data.flatMap fun c => if c = old then repl.data else [c])

/-- Python slicing `s[:n]`. -/
def stringTake (n : Nat) (s : String) : String :=
  String.mk (s.data.take n)

/-- The job record dictionary built by every parser and sample generator.
`description` is an `Option` because the LinkedIn parser's dictionary has
no `description` key at all, while the other parsers initialise the key
to the empty string; the distinction matters to `csv.DictWriter`. -/
structure Job where
  title : String
  company : String
  location : String
  experience : String
  salary : String
  description : Option String
  apply_url : String
  source : String
deriving DecidableEq

/-- The deduplication key of `SimpleJobSearch.remove_duplicates`:
`(job['title'].lower().strip(), job['company'].lower().strip())`. -/
def dedupKey (j : Job) : String × String :=
  (pyStrip (pyLowerStr j.title), pyStrip (pyLowerStr j.company))

/-- The loop of `remove_duplicates`, with `seen` the set of keys already
emitted (modelled as a list). -/
def removeDuplicatesAux (seen : List (String × String)) : List Job → List Job
  | [] => []
  | j :: js =>
    if dedupKey j ∈ seen then removeDuplicatesAux seen js
    else j :: removeDuplicatesAux (dedupKey j :: seen) js

/-- `SimpleJobSearch.remove_duplicates`: first-seen-wins deduplication on
the `(title, company)` key. -/
def remove_duplicates (jobs : List Job) : List Job :=
  removeDuplicatesAux [] jobs

/-- Predicate of `'linkedin' in job['source'].lower()` in `search_jobs`. -/
def sourceIsLinkedin (j : Job) : Bool :=
  strContains "linkedin" (pyLowerStr j.source)

/-- Predicate of `'timesjobs' in job['source'].lower()` in `search_jobs`. -/
def sourceIsTimesjobs (j : Job) : Bool :=
  strContains "timesjobs" (pyLowerStr j.source)

/-- The interleaving loop of `SimpleJobSearch.search_jobs` (source lines
905-916): partition the deduplicated list into the LinkedIn and TimesJobs
sub-sequences, then for `i` up to `max(len(linkedin_jobs),
len(timesjobs_jobs))` append `timesjobs_jobs[i]` (when it exists) and then
`linkedin_jobs[i]` (when it exists) to the accumulator. -/
def mixJobs (unique_jobs : List Job) : List Job :=
  let linkedin_jobs := unique_jobs.filter sourceIsLinkedin
  let timesjobs_jobs := unique_jobs.filter sourceIsTimesjobs
  let max_len := max linkedin_jobs.length timesjobs_jobs.length
  (List.range max_len).foldl
    (fun mixed i => mixed ++ (timesjobs_jobs.get? i).toList ++ (linkedin_jobs.get? i).toList)
    []

/-- Round-robin merge as the specification words it: for round index
`i = 0, 1, ...` up to the length of the longest per-source sub-sequence,
emit the `i`-th record of each sub-sequence that has one, in the fixed
source-priority order (TimesJobs before LinkedIn in this program). -/
def roundRobinSpec (ts ls : List Job) : List Job :=
  (List.range (max ls.length ts.length)).flatMap
    (fun i => (ts.get? i).toList ++ (ls.get? i).toList)

/-- A TimesJobs-tagged record used in the concrete interleaving example. -/
def tjJob (t : String) : Job :=
  { title := t, company := "TCS", location := "Chennai", experience := "2-4 years",
    salary := "Not disclosed", description := some "", apply_url := "https://www.timesjobs.com/x",
    source := "TimesJobs" }

/-- A LinkedIn-tagged record used in the concrete interleaving example. -/
def liJob (t : String) : Job :=
  { title := t, company := "Acme", location := "Remote", experience := "Not specified",
    salary := "Not disclosed", description := none, apply_url := "https://www.linkedin.com/x",
    source := "LinkedIn" }

/-- The URL patterns of `SimpleJobSearch.is_valid_job_url`. -/
def job_url_patterns : List String :=
  ["/job/", "/jobs/", "/career/", "/careers/",
   "/vacancy/", "/opening/", "/position/",
   "job-detail", "job_detail", "jobdetail"]

/-- `SimpleJobSearch.is_valid_job_url`: a falsy (empty) URL is invalid;
otherwise the URL is valid when its lower-cased text contains any of the
job-related patterns. -/
def is_valid_job_url (url : String) : Bool :=
  if url = "" then false
  else job_url_patterns.any (fun p => strContains p (pyLowerStr url))

/-- `SimpleJobSearch.get_fallback_job_url`: the deterministic per-source
search-URL template. -/
def get_fallback_job_url (job_title company source : String) : String :=
  if source = "Apna.co" then
    "https://apna.co/jobs?search=" ++ pyReplace job_title ' ' "%20" ++
      "&company=" ++ pyReplace company ' ' "%20"
  else if source = "TimesJobs" then
    "https://www.timesjobs.com/candidate/job-search.html?searchType=personalizedSearch&from=submit&txtKeywords=" ++
      pyReplace job_title ' ' "%20" ++ "&txtLocation=India"
  else
    "https://www.google.com/search?q=" ++ pyReplace job_title ' ' "+" ++
      "+jobs+at+" ++ pyReplace company ' ' "+"

/-- The data `parse_apna_job_card` reads off an Apna job card:
`titleLink` is the (raw text, optional `href`) of the first element
matched by the linked-title selectors; `titleText` the raw text of the
first text-only title selector match; `hrefs` the `href` values of all
anchors in the card; the remaining fields the raw text of the first
match of the respective selector lists.  A `none` means no selector
matched. -/
structure ApnaCard where
  titleLink : Option (String × Option String)
  titleText : Option String
  hrefs : List String
  company : Option String
  location : Option String
  salary : Option String
  description : Option String
deriving DecidableEq

/-- The title set by the linked-title selector loop of
`parse_apna_job_card` (empty when no selector matched). -/
def apnaTitleRaw (c : ApnaCard) : String :=
  match c.titleLink with
  | some tl => pyStrip tl.1
  | none => ""

/-- The `apply_url` set by the linked-title selector loop: kept only when
the `href` is truthy and passes `is_valid_job_url`, with a leading `/`
resolved against `https://apna.co`; otherwise the `'#'` placeholder. -/
def apnaUrlFromTitle (c : ApnaCard) : String :=
  match c.titleLink with
  | some tl =>
    match tl.2 with
    | some href =>
      if href ≠ "" ∧ is_valid_job_url href = true then
        (if pyStartswith "/" href then "https://apna.co" ++ href else href)
      else "#"
    | none => "#"
  | none => "#"

/-- The title after the text-only fallback loop (`if not job_data['title']`). -/
def apnaTitle (c : ApnaCard) : String :=
  if apnaTitleRaw c = "" then
    match c.titleText with
    | some t => pyStrip t
    | none => ""
  else apnaTitleRaw c

/-- The `apply_url` after the whole-card link scan
(`if job_data['apply_url'] == '#'`). -/
def apnaUrl (c : ApnaCard) : String :=
  if apnaUrlFromTitle c = "#" then
    match c.hrefs.find? (fun h => h != "" && is_valid_job_url h) with
    | some href => if pyStartswith "/" href then "https://apna.co" ++ href else href
    | none => "#"
  else apnaUrlFromTitle c

/-- Company text extracted by `parse_apna_job_card` (empty if no match). -/
def apnaCompany (c : ApnaCard) : String :=
  match c.company with
  | some s => pyStrip s
  | none => ""

/-- Company after the `'Various Companies'` default. -/
def apnaCompanyFinal (c : ApnaCard) : String :=
  if apnaCompany c = "" then "Various Companies" else apnaCompany c

/-- Location text extracted by `parse_apna_job_card`. -/
def apnaLocation (c : ApnaCard) : String :=
  match c.location with
  | some s => pyStrip s
  | none => ""

/-- Salary: initialised to `'Not disclosed'`, overwritten by the stripped
text of the first matching salary selector. -/
def apnaSalary (c : ApnaCard) : String :=
  match c.salary with
  | some s => pyStrip s
  | none => "Not disclosed"

/-- Description: `get_text(strip=True)[:200] + "..."` when a selector
matches, otherwise the initial empty string. -/
def apnaDescription (c : ApnaCard) : String :=
  match c.description with
  | some d => stringTake 200 (pyStrip d) ++ "..."
  | none => ""

/-- The final `apply_url` check of `parse_apna_job_card`:
`if apply_url == '#' or not is_valid_job_url(apply_url)` substitute the
fallback search URL built from the (defaulted) title and company. -/
def apnaApplyUrl (c : ApnaCard) : String :=
  if apnaUrl c = "#" ∨ is_valid_job_url (apnaUrl c) = false then
    get_fallback_job_url (apnaTitle c) (apnaCompanyFinal c) "Apna.co"
  else apnaUrl c

/-- `SimpleJobSearch.parse_apna_job_card`: reject when the title is empty,
otherwise emit the defaulted record. -/
def parse_apna_job_card (c : ApnaCard) : Option Job :=
  if apnaTitle c = "" then none
  else some
    { title := apnaTitle c
      company := apnaCompanyFinal c
      location := if apnaLocation c = "" then "India" else apnaLocation c
      experience := "As per requirement"
      salary := apnaSalary c
      description := some (apnaDescription c)
      apply_url := apnaApplyUrl c
      source := "Apna.co" }

/-- The data `parse_timesjobs_job_card` reads off a TimesJobs card, in the
same encoding as `ApnaCard`. -/
structure TimesCard where
  titleLink : Option (String × Option String)
  company : Option String
  location : Option String
  experience : Option String
  salary : Option String
  description : Option String
deriving DecidableEq

/-- Title extracted by `parse_timesjobs_job_card`. -/
def timesTitle (c : TimesCard) : String :=
  match c.titleLink with
  | some tl => pyStrip tl.1
  | none => ""

/-- The `apply_url` set from the title link: a leading `/` or a bare path
is resolved against `https://www.timesjobs.com`, an `http` URL is kept. -/
def timesUrl (c : TimesCard) : String :=
  match c.titleLink with
  | some tl =>
    match tl.2 with
    | some href =>
      if href = "" then "#"
      else if pyStartswith "/" href then "https://www.timesjobs.com" ++ href
      else if pyStartswith "http" href then href
      else "https://www.timesjobs.com/" ++ href
    | none => "#"
  | none => "#"

/-- Company extracted by `parse_timesjobs_job_card`. -/
def timesCompany (c : TimesCard) : String :=
  match c.company with
  | some s => pyStrip s
  | none => ""

/-- Location extracted by `parse_timesjobs_job_card`. -/
def timesLocation (c : TimesCard) : String :=
  match c.location with
  | some s => pyStrip s
  | none => ""

/-- Experience extracted by `parse_timesjobs_job_card`. -/
def timesExperience (c : TimesCard) : String :=
  match c.experience with
  | some s => pyStrip s
  | none => ""

/-- Salary: initialised `'Not disclosed'`, overwritten when a selector
matches. -/
def timesSalary (c : TimesCard) : String :=
  match c.salary with
  | some s => pyStrip s
  | none => "Not disclosed"

/-- Description: `[:200] + "..."` when a selector matches, else empty. -/
def timesDescription (c : TimesCard) : String :=
  match c.description with
  | some d => stringTake 200 (pyStrip d) ++ "..."
  | none => ""

/-- The final `apply_url` check of `parse_timesjobs_job_card`: only the
bare `'#'` placeholder is replaced (no validity heuristic here). -/
def timesApplyUrl (c : TimesCard) : String :=
  if timesUrl c = "#" then
    get_fallback_job_url (timesTitle c) (timesCompany c) "TimesJobs"
  else timesUrl c

/-- `SimpleJobSearch.parse_timesjobs_job_card`: requires both a title and
a company, then defaults location and experience. -/
def parse_timesjobs_job_card (c : TimesCard) : Option Job :=
  if timesTitle c = "" ∨ timesCompany c = "" then none
  else some
    { title := timesTitle c
      company := timesCompany c
      location := if timesLocation c = "" then "India" else timesLocation c
      experience := if timesExperience c = "" then "As per requirement" else timesExperience c
      salary := timesSalary c
      description := some (timesDescription c)
      apply_url := timesApplyUrl c
      source := "TimesJobs" }

/-- The data `parse_linkedin_job` reads off a LinkedIn card: the raw texts
found by `get_text` for title/company/location and the `href` of the first
anchor (`card.find('a')`), `none` when there is no anchor. -/
structure LinkedinCard where
  title : Option String
  company : Option String
  location : Option String
  href : Option String
deriving DecidableEq

/-- `get_text` result for the title selectors (stripped, `""` default). -/
def linkedinTitle (c : LinkedinCard) : String :=
  match c.title with
  | some t => pyStrip t
  | none => ""

/-- `get_text` result for the company selectors. -/
def linkedinCompany (c : LinkedinCard) : String :=
  match c.company with
  | some t => pyStrip t
  | none => ""

/-- `get_text` result for the location selectors. -/
def linkedinLocation (c : LinkedinCard) : String :=
  match c.location with
  | some t => pyStrip t
  | none => ""

/-- `job_link` of `parse_linkedin_job`: `'#'` when there is no anchor or
its `href` is falsy; a leading `/` is resolved against
`https://www.linkedin.com`; no validity check, no fallback. -/
def linkedinLink (c : LinkedinCard) : String :=
  match c.href with
  | some h =>
    if h = "" then "#"
    else if pyStartswith "/" h then "https://www.linkedin.com" ++ h
    else h
  | none => "#"

/-- `SimpleJobSearch.parse_linkedin_job`: always emits a record, with
`or`-defaults `'Software Developer'` / `'Tech Company'` / `'Remote'`; the
dictionary carries no `description` key. -/
def parse_linkedin_job (c : LinkedinCard) : Option Job :=
  some
    { title := if linkedinTitle c = "" then "Software Developer" else linkedinTitle c
      company := if linkedinCompany c = "" then "Tech Company" else linkedinCompany c
      location := if linkedinLocation c = "" then "Remote" else linkedinLocation c
      experience := "Not specified"
      salary := "Not disclosed"
      description := none
      apply_url := linkedinLink c
      source := "LinkedIn" }

/-- A LinkedIn card whose title text is whitespace-only. -/
def wsLinkedinCard : LinkedinCard :=
  { title := some "   ", company := some "Acme", location := none, href := none }

/-- An Apna card whose title text is whitespace-only. -/
def wsApnaCard : ApnaCard :=
  { titleLink := some ("   ", none), titleText := none, hrefs := [],
    company := none, location := none, salary := none, description := none }

/-- A LinkedIn card with a title but no company text. -/
def c5LinkedinCard : LinkedinCard :=
  { title := some "Data Engineer", company := none, location := none, href := none }

/-- An Apna card with a title and every optional field missing. -/
def apnaCardW : ApnaCard :=
  { titleLink := some ("Data Analyst", none), titleText := none, hrefs := [],
    company := none, location := none, salary := none, description := none }

/-- The record `parse_apna_job_card` emits for `apnaCardW`. -/
def apnaJobW : Job :=
  { title := "Data Analyst", company := "Various Companies", location := "India",
    experience := "As per requirement", salary := "Not disclosed", description := some "",
    apply_url := "https://apna.co/jobs?search=Data%20Analyst&company=Various%20Companies",
    source := "Apna.co" }

/-- An Apna card whose description text is only three characters long. -/
def c6wCard : ApnaCard :=
  { titleLink := some ("Clerk", none), titleText := none, hrefs := [],
    company := none, location := none, salary := none, description := some "abc" }

/-- The record `parse_apna_job_card` emits for `c6wCard`. -/
def c6wJob : Job :=
  { title := "Clerk", company := "Various Companies", location := "India",
    experience := "As per requirement", salary := "Not disclosed", description := some "abc...",
    apply_url := "https://apna.co/jobs?search=Clerk&company=Various%20Companies",
    source := "Apna.co" }

/-- A LinkedIn card with no anchor at all. -/
def c7LinkedinCard : LinkedinCard :=
  { title := some "QA Engineer", company := some "Acme", location := none, href := none }

/-- A TimesJobs card with a relative job link. -/
def c7wTimesCard : TimesCard :=
  { titleLink := some ("Dev", some "/job-detail/x"), company := some "Acme",
    location := none, experience := none, salary := none, description := none }

/-- The record `parse_timesjobs_job_card` emits for `c7wTimesCard`. -/
def c7wTimesJob : Job :=
  { title := "Dev", company := "Acme", location := "India",
    experience := "As per requirement", salary := "Not disclosed", description := some "",
    apply_url := "https://www.timesjobs.com/job-detail/x", source := "TimesJobs" }

/-- Companies of `get_sample_timesjobs`. -/
def tjSampleCompanies : List String :=
  ["Accenture", "Capgemini", "IBM", "Deloitte", "EY", "KPMG"]

/-- Locations of `get_sample_timesjobs`. -/
def tjSampleLocations : List String :=
  ["Gurgaon", "Noida", "Bangalore", "Hyderabad", "Chennai", "Mumbai"]

/-- `SimpleJobSearch.get_sample_timesjobs`: four deterministic sample
records tagged `'TimesJobs'` (the `location` argument is unused, as in
the source). -/
def get_sample_timesjobs (job_title _location : String) : List Job :=
  (List.range 4).map (fun i =>
    let company := (tjSampleCompanies.get? (i % tjSampleCompanies.length)).getD ""
    let title := if i = 0 then job_title else "Senior " ++ job_title
    { title := title
      company := company
      location := (tjSampleLocations.get? (i % tjSampleLocations.length)).getD ""
      experience := toString (2 + i) ++ "-" ++ toString (5 + i) ++ " years"
      salary := "₹" ++ toString (4 + i * 3) ++ "-" ++ toString (8 + i * 4) ++ " Lakh PA"
      description := some ("Great " ++ job_title ++ " opportunity at " ++ company ++ ".")
      apply_url := get_fallback_job_url title company "TimesJobs"
      source := "TimesJobs" })

/-- Companies of `get_sample_linkedin_jobs`. -/
def liSampleCompanies : List String :=
  ["Microsoft", "Google", "Amazon", "Meta", "Apple"]

/-- Locations of `get_sample_linkedin_jobs`. -/
def liSampleLocations : List String :=
  ["Remote", "San Francisco", "Seattle", "New York", "Austin"]

/-- `SimpleJobSearch.get_sample_linkedin_jobs`: five deterministic sample
records tagged `'LinkedIn'`. -/
def get_sample_linkedin_jobs (job_title : String) : List Job :=
  (List.range 5).map (fun i =>
    let company := (liSampleCompanies.get? (i % liSampleCompanies.length)).getD ""
    { title := "Senior " ++ job_title
      company := company
      location := (liSampleLocations.get? (i % liSampleLocations.length)).getD ""
      experience := toString (3 + i) ++ "+ years"
      salary := "$" ++ toString (80 + i * 20) ++ "k - $" ++ toString (120 + i * 20) ++ "k"
      description := some ("Exciting opportunity for " ++ job_title ++ " at " ++ company ++
        " with competitive benefits.")
      apply_url := "https://www.linkedin.com/jobs/view/" ++ toString (1000000 + i)
      source := "LinkedIn" })

/-- What the live HTTP fetch of an extractor produced: an exception
anywhere in the `try` block, or a completed response with its status code
and the list of job cards found in the parsed document. -/
inductive FetchOutcome (α : Type) where
  | raised : FetchOutcome α
  | status : Nat → List α → FetchOutcome α

/-- `SimpleJobSearch.search_timesjobs`: on status 200 parse at most 8
cards; after the fetch, an empty job list is replaced by the sample
records; an exception also falls back to the samples. -/
def search_timesjobs (job_title location : String)
    (fetch : FetchOutcome TimesCard) : List Job :=
  match fetch with
  | FetchOutcome.raised => get_sample_timesjobs job_title location
  | FetchOutcome.status code cards =>
    let jobs := if code = 200 then (cards.take 8).filterMap parse_timesjobs_job_card else []
    if jobs = [] then get_sample_timesjobs job_title location else jobs

/-- `SimpleJobSearch.search_linkedin`: on status 200 parse at most 10
cards; the sample fallback is reached only from the `except` branch —
there is no empty-result fallback after a completed fetch (the
`location` argument only feeds the request URL). -/
def search_linkedin (job_title _location : String)
    (fetch : FetchOutcome LinkedinCard) : List Job :=
  match fetch with
  | FetchOutcome.raised => get_sample_linkedin_jobs job_title
  | FetchOutcome.status code cards =>
    if code = 200 then (cards.take 10).filterMap parse_linkedin_job else []

/-- The `fieldnames` list of `save_to_csv`. -/
def csvFieldnames : List String :=
  ["title", "company", "location", "experience", "salary", "apply_url", "source"]

/-- One `csv.DictWriter.writerow` call: a record whose dictionary still
carries the `description` key has a key outside `fieldnames`, and the
default `extrasaction` policy makes `writerow` raise `ValueError`;
otherwise the row is the record's fields in `fieldnames` order. -/
def csvWriterow (j : Job) : Except String (List String) :=
  match j.description with
  | some _ => Except.error "dict contains fields not in fieldnames: description"
  | none => Except.ok
      [j.title, j.company, j.location, j.experience, j.salary, j.apply_url, j.source]

/-- `SimpleJobSearch.save_to_csv`, modelled as the rows it writes: the
header row followed by one row per record in order, or the `ValueError`
raised by the first record carrying an extra key. -/
def save_to_csv (jobs : List Job) : Except String (List (List String)) :=
  match jobs.mapM csvWriterow with
  | Except.ok rows => Except.ok (csvFieldnames :: rows)
  | Except.error e => Except.error e

/-- The JSON body of a `/search` request: either key may be absent. -/
structure SearchRequest where
  job_title : Option String
  location : Option String

/-- The responses the `/search` route can return. -/
inductive WebResponse where
  | clientError : Nat → String → WebResponse
  | okJobs : List Job → Nat → WebResponse
  | serverError : Nat → String → WebResponse

/-- The `/search` route of `simple_web_app.py`: strip
`data.get('job_title', '')` and `data.get('location', 'India')`, reject a
falsy title with HTTP 400, otherwise run the pipeline and answer with the
jobs and their count, or with HTTP 500 and the exception message on any
uncaught pipeline failure (the pipeline is passed explicitly, returning
`Except.error` for a raised exception). -/
def search_endpoint (req : SearchRequest)
    (pipeline : String → String → Except String (List Job)) : WebResponse :=
  if pyStrip (req.job_title.getD "") = "" then
    WebResponse.clientError 400 "Job title is required"
  else
    match pipeline (pyStrip (req.job_title.getD "")) (pyStrip (req.location.getD "India")) with
    | Except.ok jobs => WebResponse.okJobs jobs jobs.length
    | Except.error e => WebResponse.serverError 500 e

/-- A request whose `job_title` is whitespace-only. -/
def reqBlankTitle : SearchRequest :=
  { job_title := some "   ", location := none }

/-- A pipeline stub that succeeds with no jobs. -/
def okPipeline : String → String → Except String (List Job) :=
  fun _ _ => Except.ok []

theorem removeDuplicatesAux_sublist (seen : List (String × String)) (js : List Job) :
    List.Sublist (removeDuplicatesAux seen js) js := by
  induction js generalizing seen with
  | nil => exact List.Sublist.refl []
  | cons j js ih =>
    unfold removeDuplicatesAux
    split
    · exact List.Sublist.cons j (ih seen)
    · exact List.Sublist.cons₂ j (ih _)

theorem removeDuplicatesAux_not_seen (seen : List (String × String)) (js : List Job) :
    ∀ j ∈ removeDuplicatesAux seen js, dedupKey j ∉ seen := by
  induction js generalizing seen with
  | nil => intro j hj; cases hj
  | cons a js ih =>
    intro j hj
    unfold removeDuplicatesAux at hj
    split at hj
    · exact ih seen j hj
    · rcases List.mem_cons.mp hj with h | h
      · subst h; assumption
      · intro hmem
        exact ih (dedupKey a :: seen) j h (List.mem_cons_of_mem _ hmem)

theorem removeDuplicatesAux_nodup_keys (seen : List (String × String)) (js : List Job) :
    ((removeDuplicatesAux seen js).map dedupKey).Nodup := by
  induction js generalizing seen with
  | nil => exact List.nodup_nil
  | cons a js ih =>
    unfold removeDuplicatesAux
    split
    · exact ih seen
    · rw [List.map_cons, List.nodup_cons]
      refine ⟨?_, ih _⟩
      intro hmem
      rcases List.mem_map.mp hmem with ⟨j, hj, hkey⟩
      exact removeDuplicatesAux_not_seen _ _ j hj (hkey ▸ List.mem_cons_self _ _)

theorem removeDuplicatesAux_find? (seen : List (String × String)) (js : List Job)
    (k : String × String) (hk : k ∉ seen) :
    (removeDuplicatesAux seen js).find? (fun j => decide (dedupKey j = k)) =
      js.find? (fun j => decide (dedupKey j = k)) := by
  induction js generalizing seen with
  | nil => rfl
  | cons a js ih =>
    unfold removeDuplicatesAux
    split
    · rename_i hseen
      have hne : ¬ (dedupKey a = k) := fun h => hk (h ▸ hseen)
      rw [ih seen hk, List.find?_cons_of_neg _ (by simpa using hne)]
    · rename_i hseen
      by_cases hak : dedupKey a = k
      · rw [List.find?_cons_of_pos _ (by simpa using hak),
          List.find?_cons_of_pos _ (by simpa using hak)]
      · rw [List.find?_cons_of_neg _ (by simpa using hak),
          List.find?_cons_of_neg _ (by simpa using hak)]
        exact ih _ (by
          intro hmem
          rcases List.mem_cons.mp hmem with h | h
          · exact hak h.symm
          · exact hk h)

/-- C1: `remove_duplicates` keys records by the lower-cased, stripped
`(title, company)` pair; the output is a sublist of the input (order and
records unchanged), no key appears twice in the output, and for every key
the first record retained is exactly the first matching record of the
input (first-seen wins). -/
theorem remove_duplicates_first_seen_wins (js : List Job) :
    List.Sublist (remove_duplicates js) js ∧
    ((remove_duplicates js).map dedupKey).Nodup ∧
    ∀ k : String × String,
      (remove_duplicates js).find? (fun j => decide (dedupKey j = k)) =
        js.find? (fun j => decide (dedupKey j = k)) :=
  ⟨removeDuplicatesAux_sublist [] js, removeDuplicatesAux_nodup_keys [] js,
    fun k => removeDuplicatesAux_find? [] js k (by simp)⟩

theorem foldlAppendPair {α : Type} (f g : Nat → List α) (l : List Nat) :
    ∀ init : List α,
      l.foldl (fun acc i => acc ++ f i ++ g i) init = init ++ l.flatMap (fun i => f i ++ g i) := by
  induction l with
  | nil => intro init; simp
  | cons x xs ih =>
    intro init
    simp only [List.foldl_cons, List.flatMap_cons, ih]
    simp [List.append_assoc]

theorem flatMapCongr {α β : Type} (l : List α) (f g : α → List β)
    (h : ∀ a ∈ l, f a = g a) : l.flatMap f = l.flatMap g := by
  induction l with
  | nil => rfl
  | cons x xs ih =>
    simp only [List.flatMap_cons, h x (List.mem_cons_self x xs),
      ih (fun a ha => h a (List.mem_cons_of_mem x ha))]

theorem flatMapNilFun {α β : Type} (l : List β) :
    (l.flatMap fun _ => ([] : List α)) = [] := by
  induction l with
  | nil => rfl
  | cons x xs ih => rw [List.flatMap_cons, List.nil_append]; exact ih

theorem rangeFlatMapGet {α : Type} (xs : List α) :
    ∀ n, xs.length ≤ n → (List.range n).flatMap (fun i => (xs.get? i).toList) = xs := by
  induction xs with
  | nil =>
    intro n _
    have h : ∀ i ∈ List.range n, (([] : List α).get? i).toList = [] := by
      intro i _; rfl
    rw [flatMapCongr _ _ (fun _ => ([] : List α)) h]
    exact flatMapNilFun _
  | cons x xs ih =>
    intro n hn
    cases n with
    | zero => exact absurd hn (by simp)
    | succ m =>
      rw [List.range_succ_eq_map, List.flatMap_cons, List.flatMap_map]
      have h : ∀ i ∈ List.range m,
          ((x :: xs).get? (Nat.succ i)).toList = (xs.get? i).toList := by
        intro i _; rfl
      rw [flatMapCongr _ _ (fun i => (xs.get? i).toList) h,
        ih m (Nat.le_of_succ_le_succ hn)]
      rfl

theorem filterFlatMap {α β : Type} (l : List α) (f : α → List β) (p : β → Bool) :
    (l.flatMap f).filter p = l.flatMap (fun a => (f a).filter p) := by
  induction l with
  | nil => rfl
  | cons x xs ih => simp only [List.flatMap_cons, List.filter_append, ih]

theorem filterGetToList {α : Type} (xs : List α) (p : α → Bool)
    (h : ∀ a ∈ xs, p a = true) (i : Nat) :
    ((xs.get? i).toList).filter p = (xs.get? i).toList := by
  cases hx : xs.get? i with
  | none => rfl
  | some a =>
    have := h a (List.get?_mem hx)
    simp [Option.toList, List.filter, this]

theorem filterGetToListNeg {α : Type} (xs : List α) (p : α → Bool)
    (h : ∀ a ∈ xs, p a = false) (i : Nat) :
    ((xs.get? i).toList).filter p = [] := by
  cases hx : xs.get? i with
  | none => rfl
  | some a =>
    have := h a (List.get?_mem hx)
    simp [Option.toList, List.filter, this]

theorem filterRoundRobinLeft (p : Job → Bool) (ts ls : List Job)
    (h1 : ∀ a ∈ ts, p a = true) (h2 : ∀ a ∈ ls, p a = false) :
    (roundRobinSpec ts ls).filter p = ts := by
  unfold roundRobinSpec
  rw [filterFlatMap]
  rw [flatMapCongr _ _ (fun i => (ts.get? i).toList) ?_]
  · exact rangeFlatMapGet ts _ (Nat.le_max_right _ _)
  · intro i _
    rw [List.filter_append, filterGetToList ts p h1 i, filterGetToListNeg ls p h2 i,
      List.append_nil]

theorem filterRoundRobinRight (p : Job → Bool) (ts ls : List Job)
    (h1 : ∀ a ∈ ts, p a = false) (h2 : ∀ a ∈ ls, p a = true) :
    (roundRobinSpec ts ls).filter p = ls := by
  unfold roundRobinSpec
  rw [filterFlatMap]
  rw [flatMapCongr _ _ (fun i => (ls.get? i).toList) ?_]
  · exact rangeFlatMapGet ls _ (Nat.le_max_left _ _)
  · intro i _
    rw [List.filter_append, filterGetToList ls p h2 i, filterGetToListNeg ts p h1 i,
      List.nil_append]

theorem filterRoundRobinNone (p : Job → Bool) (ts ls : List Job)
    (h1 : ∀ a ∈ ts, p a = false) (h2 : ∀ a ∈ ls, p a = false) :
    (roundRobinSpec ts ls).filter p = [] := by
  unfold roundRobinSpec
  rw [filterFlatMap]
  rw [flatMapCongr _ _ (fun _ => ([] : List Job)) ?_]
  · exact flatMapNilFun _
  · intro i _
    rw [List.filter_append, filterGetToListNeg ts p h1 i, filterGetToListNeg ls p h2 i]
    rfl

theorem mixJobs_eq_roundRobinSpec (js : List Job) :
    mixJobs js = roundRobinSpec (js.filter sourceIsTimesjobs) (js.filter sourceIsLinkedin) := by
  unfold mixJobs roundRobinSpec
  rw [foldlAppendPair]
  rfl

/-- C2: the interleaver of `search_jobs` is a round-robin merge over the
per-source sub-sequences in the fixed priority order TimesJobs before
LinkedIn: for rounds `i = 0, 1, ...` it emits the `i`-th record of each
sub-sequence that has one, until both are exhausted; in particular for
TimesJobs records `[a1, a2, a3]` and LinkedIn records `[b1, b2]` the
output is `[a1, b1, a2, b2, a3]`. -/
theorem mixJobs_round_robin :
    (∀ js : List Job,
      mixJobs js =
        roundRobinSpec (js.filter sourceIsTimesjobs) (js.filter sourceIsLinkedin)) ∧
    mixJobs [tjJob "a1", tjJob "a2", tjJob "a3", liJob "b1", liJob "b2"] =
      [tjJob "a1", liJob "b1", tjJob "a2", liJob "b2", tjJob "a3"] :=
  ⟨mixJobs_eq_roundRobinSpec, by decide⟩

/-- C3: for input whose records are tagged with this program's two source
values, interleaving preserves each source's sub-sequence exactly: the
records of the mixed output whose source equals `S` are the records of
the input whose source equals `S`, in the same order — nothing is
reordered, dropped, or duplicated. -/
theorem mixJobs_preserves_source_subsequence (js : List Job) (S : String)
    (h : ∀ j ∈ js, j.source = "TimesJobs" ∨ j.source = "LinkedIn") :
    (mixJobs js).filter (fun j => decide (j.source = S)) =
      js.filter (fun j => decide (j.source = S)) := by
  have hts : js.filter sourceIsTimesjobs =
      js.filter (fun j => decide (j.source = "TimesJobs")) := by
    apply List.filter_congr
    intro j hj
    rcases h j hj with hs | hs <;> rw [sourceIsTimesjobs, hs] <;> rfl
  have hls : js.filter sourceIsLinkedin =
      js.filter (fun j => decide (j.source = "LinkedIn")) := by
    apply List.filter_congr
    intro j hj
    rcases h j hj with hs | hs <;> rw [sourceIsLinkedin, hs] <;> rfl
  rw [mixJobs_eq_roundRobinSpec]
  by_cases hS : S = "TimesJobs"
  · subst hS
    rw [filterRoundRobinLeft _ _ _ ?_ ?_, hts]
    · intro a ha
      rw [hts] at ha
      exact (List.mem_filter.mp ha).2
    · intro a ha
      rw [hls] at ha
      have := (List.mem_filter.mp ha).2
      have ha2 : a.source = "LinkedIn" := by simpa using this
      simp [ha2]
  · by_cases hS2 : S = "LinkedIn"
    · subst hS2
      rw [filterRoundRobinRight _ _ _ ?_ ?_, hls]
      · intro a ha
        rw [hts] at ha
        have := (List.mem_filter.mp ha).2
        have ha2 : a.source = "TimesJobs" := by simpa using this
        simp [ha2]
      · intro a ha
        rw [hls] at ha
        exact (List.mem_filter.mp ha).2
    · rw [filterRoundRobinNone _ _ _ ?_ ?_]
      · symm
        rw [List.filter_eq_nil_iff]
        intro j hj
        rcases h j hj with hs | hs
        · simp only [hs, decide_eq_true_eq]
          exact fun he => hS he.symm
        · simp only [hs, decide_eq_true_eq]
          exact fun he => hS2 he.symm
      · intro a ha
        rw [hts] at ha
        have ha2 : a.source = "TimesJobs" := by
          simpa using (List.mem_filter.mp ha).2
        simp [ha2]
        exact fun he => hS he.symm
      · intro a ha
        rw [hls] at ha
        have ha2 : a.source = "LinkedIn" := by
          simpa using (List.mem_filter.mp ha).2
        simp [ha2]
        exact fun he => hS2 he.symm

/-- Witness for C3 at a concrete mixed-source input. -/
theorem mixJobs_preserves_source_subsequence_witness :
    (∀ j ∈ [tjJob "a1", liJob "b1", tjJob "a2"],
        j.source = "TimesJobs" ∨ j.source = "LinkedIn") ∧
    ([tjJob "a1", liJob "b1", tjJob "a2"].filter
        (fun j => decide (j.source = "TimesJobs")) =
      [tjJob "a1", tjJob "a2"] →
    (mixJobs [tjJob "a1", liJob "b1", tjJob "a2"]).filter
        (fun j => decide (j.source = "TimesJobs")) =
      [tjJob "a1", tjJob "a2"]) :=
  ⟨by decide, fun h =>
    (mixJobs_preserves_source_subsequence
        [tjJob "a1", liJob "b1", tjJob "a2"] "TimesJobs" (by decide)).trans h⟩

theorem dataAppend (a b : String) : (a ++ b).data = a.data ++ b.data := rfl

theorem listPrefixEq_append (p : List Char) :
    ∀ a b : List Char, listPrefixEq p a = true → listPrefixEq p (a ++ b) = true := by
  induction p with
  | nil => intro a b _; rfl
  | cons x xs ih =>
    intro a b h
    cases a with
    | nil => exact absurd h (by simp [listPrefixEq])
    | cons y ys =>
      simp only [List.cons_append, listPrefixEq, Bool.and_eq_true] at h ⊢
      exact ⟨h.1, ih ys b h.2⟩

theorem pyStartswith_append (p a b : String) (h : pyStartswith p a = true) :
    pyStartswith p (a ++ b) = true := by
  unfold pyStartswith at h ⊢
  rw [dataAppend]
  exact listPrefixEq_append _ _ _ h

theorem fallback_url_startswith_http (t c s : String) :
    pyStartswith "http" (get_fallback_job_url t c s) = true := by
  unfold get_fallback_job_url
  split
  · exact pyStartswith_append _ _ _
      (pyStartswith_append _ _ _ (pyStartswith_append _ _ _ (by decide)))
  · split
    · exact pyStartswith_append _ _ _ (pyStartswith_append _ _ _ (by decide))
    · exact pyStartswith_append _ _ _
        (pyStartswith_append _ _ _ (pyStartswith_append _ _ _ (by decide)))

theorem startswith_http_ne_hash (u : String) (h : pyStartswith "http" u = true) :
    u ≠ "#" := by
  intro he
  rw [he] at h
  exact absurd h (by decide)

theorem parse_apna_some (c : ApnaCard) (j : Job) (h : parse_apna_job_card c = some j) :
    j = { title := apnaTitle c, company := apnaCompanyFinal c,
          location := if apnaLocation c = "" then "India" else apnaLocation c,
          experience := "As per requirement", salary := apnaSalary c,
          description := some (apnaDescription c), apply_url := apnaApplyUrl c,
          source := "Apna.co" } ∧ apnaTitle c ≠ "" := by
  unfold parse_apna_job_card at h
  split at h
  · exact absurd h (by simp)
  · exact ⟨(Option.some.inj h).symm, by assumption⟩

theorem parse_times_some (c : TimesCard) (j : Job) (h : parse_timesjobs_job_card c = some j) :
    j = { title := timesTitle c, company := timesCompany c,
          location := if timesLocation c = "" then "India" else timesLocation c,
          experience := if timesExperience c = "" then "As per requirement"
            else timesExperience c,
          salary := timesSalary c, description := some (timesDescription c),
          apply_url := timesApplyUrl c, source := "TimesJobs" } ∧
    timesTitle c ≠ "" ∧ timesCompany c ≠ "" := by
  unfold parse_timesjobs_job_card at h
  split at h
  · exact absurd h (by simp)
  · rename_i hcond
    push_neg at hcond
    exact ⟨(Option.some.inj h).symm, hcond.1, hcond.2⟩

theorem parse_linkedin_some (c : LinkedinCard) (j : Job) (h : parse_linkedin_job c = some j) :
    j = { title := if linkedinTitle c = "" then "Software Developer" else linkedinTitle c,
          company := if linkedinCompany c = "" then "Tech Company" else linkedinCompany c,
          location := if linkedinLocation c = "" then "Remote" else linkedinLocation c,
          experience := "Not specified", salary := "Not disclosed", description := none,
          apply_url := linkedinLink c, source := "LinkedIn" } :=
  (Option.some.inj h).symm

/-- C4 counterexample: the LinkedIn parser, given a card whose title text
is whitespace-only, still emits a record — with the substituted title
`'Software Developer'` — instead of producing no record. -/
theorem linkedin_emits_record_for_blank_title :
    parse_linkedin_job wsLinkedinCard =
      some { title := "Software Developer", company := "Acme", location := "Remote",
             experience := "Not specified", salary := "Not disclosed", description := none,
             apply_url := "#", source := "LinkedIn" } := by decide

/-- C4 (amended): the Apna and TimesJobs card parsers emit no record when
the extracted title is empty after trimming; the LinkedIn parser instead
substitutes the default title `'Software Developer'` and still emits a
record. -/
theorem empty_title_policy :
    (∀ c : ApnaCard, apnaTitle c = "" → parse_apna_job_card c = none) ∧
    (∀ c : TimesCard, timesTitle c = "" → parse_timesjobs_job_card c = none) ∧
    (∀ c : LinkedinCard, linkedinTitle c = "" →
      (parse_linkedin_job c).map Job.title = some "Software Developer") := by
  refine ⟨?_, ?_, ?_⟩
  · intro c h
    unfold parse_apna_job_card
    rw [if_pos h]
  · intro c h
    unfold parse_timesjobs_job_card
    rw [if_pos (Or.inl h)]
  · intro c h
    simp [parse_linkedin_job, h]

/-- Witness for C4 at a concrete whitespace-only-title Apna card. -/
theorem empty_title_policy_witness :
    apnaTitle wsApnaCard = "" ∧ parse_apna_job_card wsApnaCard = none :=
  ⟨by decide, empty_title_policy.1 wsApnaCard (by decide)⟩

/-- C5 counterexample: a LinkedIn card with a missing company is accepted
with the default `'Tech Company'`, not the claimed source-independent
`'Various Companies'`. -/
theorem linkedin_company_default_differs :
    (parse_linkedin_job c5LinkedinCard).map Job.company = some "Tech Company" ∧
    ¬ (parse_linkedin_job c5LinkedinCard).map Job.company = some "Various Companies" := by
  decide

/-- C5 (amended): the defaults are source-dependent.  Apna fills company
`'Various Companies'` and location `'India'`, always sets experience
`'As per requirement'`, and salary defaults to `'Not disclosed'` when no
selector matched; TimesJobs rejects records with empty company and fills
location `'India'`, experience `'As per requirement'`, salary
`'Not disclosed'`; LinkedIn fills company `'Tech Company'`, location
`'Remote'`, and always sets experience `'Not specified'` and salary
`'Not disclosed'`. -/
theorem normalizer_default_policy :
    (∀ (c : ApnaCard) (j : Job), parse_apna_job_card c = some j →
       (apnaCompany c = "" → j.company = "Various Companies") ∧
       (apnaLocation c = "" → j.location = "India") ∧
       j.experience = "As per requirement" ∧
       (c.salary = none → j.salary = "Not disclosed")) ∧
    (∀ (c : TimesCard) (j : Job), parse_timesjobs_job_card c = some j →
       timesCompany c ≠ "" ∧
       (timesLocation c = "" → j.location = "India") ∧
       (timesExperience c = "" → j.experience = "As per requirement") ∧
       (c.salary = none → j.salary = "Not disclosed")) ∧
    (∀ (c : LinkedinCard) (j : Job), parse_linkedin_job c = some j →
       (linkedinCompany c = "" → j.company = "Tech Company") ∧
       (linkedinLocation c = "" → j.location = "Remote") ∧
       j.experience = "Not specified" ∧ j.salary = "Not disclosed") := by
  refine ⟨?_, ?_, ?_⟩
  · intro c j h
    obtain ⟨rfl, -⟩ := parse_apna_some c j h
    refine ⟨?_, ?_, rfl, ?_⟩
    · intro hc
      simp [apnaCompanyFinal, hc]
    · intro hl
      simp [hl]
    · intro hs
      simp [apnaSalary, hs]
  · intro c j h
    obtain ⟨rfl, -, hcomp⟩ := parse_times_some c j h
    refine ⟨hcomp, ?_, ?_, ?_⟩
    · intro hl
      simp [hl]
    · intro hexp
      simp [hexp]
    · intro hs
      simp [timesSalary, hs]
  · intro c j h
    obtain rfl := parse_linkedin_some c j h
    refine ⟨?_, ?_, rfl, rfl⟩
    · intro hc
      simp [hc]
    · intro hl
      simp [hl]

/-- Witness for C5 at a concrete Apna card with missing optional fields. -/
theorem normalizer_default_policy_witness :
    apnaJobW.company = "Various Companies" ∧ apnaJobW.location = "India" :=
  have h := normalizer_default_policy.1 apnaCardW apnaJobW (by decide)
  ⟨h.1 (by decide), h.2.1 (by decide)⟩

/-- C6 counterexample: an Apna card whose description is only three
characters — at or under the 200-character bound — is emitted with the
ellipsis suffix appended anyway, not kept as-is. -/
theorem short_description_gets_ellipsis :
    (parse_apna_job_card c6wCard).map Job.description = some (some "abc...") := by decide

/-- C6 (amended): when a description selector matches, the Apna and
TimesJobs parsers set the description to the first 200 characters of the
stripped text with the ellipsis suffix always appended (even at or under
the bound); when no selector matches, the description stays the initial
empty string. -/
theorem description_policy :
    (∀ (c : ApnaCard) (j : Job), parse_apna_job_card c = some j →
       (c.description = none → j.description = some "") ∧
       (∀ d, c.description = some d →
         j.description = some (stringTake 200 (pyStrip d) ++ "..."))) ∧
    (∀ (c : TimesCard) (j : Job), parse_timesjobs_job_card c = some j →
       (c.description = none → j.description = some "") ∧
       (∀ d, c.description = some d →
         j.description = some (stringTake 200 (pyStrip d) ++ "..."))) := by
  constructor
  · intro c j h
    obtain ⟨rfl, -⟩ := parse_apna_some c j h
    constructor
    · intro hd
      simp [apnaDescription, hd]
    · intro d hd
      simp [apnaDescription, hd]
  · intro c j h
    obtain ⟨rfl, -, -⟩ := parse_times_some c j h
    constructor
    · intro hd
      simp [timesDescription, hd]
    · intro d hd
      simp [timesDescription, hd]

/-- Witness for C6 at a concrete Apna card with a short description. -/
theorem description_policy_witness :
    c6wJob.description = some (stringTake 200 (pyStrip "abc") ++ "...") :=
  (description_policy.1 c6wCard c6wJob (by decide)).2 "abc" rfl

theorem timesUrl_cases (c : TimesCard) :
    timesUrl c = "#" ∨ pyStartswith "http" (timesUrl c) = true := by
  unfold timesUrl
  rcases c.titleLink with - | ⟨t, ho⟩
  · exact Or.inl rfl
  · rcases ho with - | href
    · exact Or.inl rfl
    · dsimp only
      split
      · exact Or.inl rfl
      · split
        · exact Or.inr (pyStartswith_append _ _ _ (by decide))
        · split
          · rename_i hh
            exact Or.inr hh
          · exact Or.inr (pyStartswith_append _ _ _ (by decide))

/-- C7 counterexample: the LinkedIn parser, given a card with no anchor,
emits a record whose `apply_url` is the bare placeholder `'#'` — no
validity heuristic and no fallback substitution are applied. -/
theorem linkedin_apply_url_placeholder :
    (parse_linkedin_job c7LinkedinCard).map Job.apply_url = some "#" := by decide

/-- C7 (amended): the Apna parser guarantees that every emitted record's
`apply_url` is not the placeholder `'#'` and either passes the job-URL
validity heuristic (with `/`-relative links resolved against
`https://apna.co`) or is the generated fallback search URL keyed by the
record's (title, company, source); the TimesJobs parser always emits an
`apply_url` beginning with `http`; the LinkedIn parser applies neither
check and can emit the bare placeholder. -/
theorem apply_url_policy :
    (∀ (c : ApnaCard) (j : Job), parse_apna_job_card c = some j →
       j.apply_url ≠ "#" ∧
       (is_valid_job_url j.apply_url = true ∨
        j.apply_url = get_fallback_job_url j.title j.company "Apna.co")) ∧
    (∀ (c : TimesCard) (j : Job), parse_timesjobs_job_card c = some j →
       pyStartswith "http" j.apply_url = true) := by
  constructor
  · intro c j h
    obtain ⟨rfl, -⟩ := parse_apna_some c j h
    show apnaApplyUrl c ≠ "#" ∧
      (is_valid_job_url (apnaApplyUrl c) = true ∨
        apnaApplyUrl c = get_fallback_job_url (apnaTitle c) (apnaCompanyFinal c) "Apna.co")
    unfold apnaApplyUrl
    split
    · exact ⟨startswith_http_ne_hash _ (fallback_url_startswith_http _ _ _), Or.inr rfl⟩
    · rename_i hcond
      push_neg at hcond
      refine ⟨hcond.1, Or.inl ?_⟩
      have h2 := hcond.2
      revert h2
      cases is_valid_job_url (apnaUrl c)
      · intro h2
        exact absurd rfl h2
      · intro _
        rfl
  · intro c j h
    obtain ⟨rfl, -, -⟩ := parse_times_some c j h
    show pyStartswith "http" (timesApplyUrl c) = true
    unfold timesApplyUrl
    split
    · exact fallback_url_startswith_http _ _ _
    · rename_i hne
      rcases timesUrl_cases c with hu | hu
      · exact absurd hu hne
      · exact hu

/-- Witness for C7 at a concrete TimesJobs card with a relative link. -/
theorem apply_url_policy_witness :
    pyStartswith "http" c7wTimesJob.apply_url = true :=
  apply_url_policy.2 c7wTimesCard c7wTimesJob (by decide)

theorem sample_timesjobs_ne_nil (t l : String) : get_sample_timesjobs t l ≠ [] := by
  intro h
  have := congrArg List.length h
  simp [get_sample_timesjobs] at this

theorem sample_timesjobs_sources (t l : String) :
    (get_sample_timesjobs t l).all (fun j => decide (j.source = "TimesJobs")) = true := by
  rw [List.all_eq_true]
  intro x hx
  unfold get_sample_timesjobs at hx
  rcases List.mem_map.mp hx with ⟨i, -, h⟩
  subst h
  simp

theorem sample_linkedin_ne_nil (t : String) : get_sample_linkedin_jobs t ≠ [] := by
  intro h
  have := congrArg List.length h
  simp [get_sample_linkedin_jobs] at this

theorem sample_linkedin_sources (t : String) :
    (get_sample_linkedin_jobs t).all (fun j => decide (j.source = "LinkedIn")) = true := by
  rw [List.all_eq_true]
  intro x hx
  unfold get_sample_linkedin_jobs at hx
  rcases List.mem_map.mp hx with ⟨i, -, h⟩
  subst h
  simp

/-- C8 counterexample: when the LinkedIn fetch completes with status 200
but zero job cards (an empty result set, no exception), `search_linkedin`
returns the empty sequence — the sample fallback lives only in the
`except` branch. -/
theorem search_linkedin_empty_on_no_cards :
    search_linkedin "Python Developer" "India" (FetchOutcome.status 200 []) = [] := rfl

/-- C8 (amended): the TimesJobs extractor always returns a non-empty
sequence of records tagged `'TimesJobs'`, substituting the sample records
on a raised exception, a non-200 status, or an empty parse; the LinkedIn
extractor substitutes its samples only when an exception was raised — a
completed fetch that yields zero usable records returns the empty
sequence. -/
theorem extractor_fallback_contract :
    (∀ (t l : String) (o : FetchOutcome TimesCard),
       search_timesjobs t l o ≠ [] ∧
       (search_timesjobs t l o).all (fun j => decide (j.source = "TimesJobs")) = true) ∧
    (∀ t l : String,
       search_linkedin t l FetchOutcome.raised ≠ [] ∧
       (search_linkedin t l FetchOutcome.raised).all
         (fun j => decide (j.source = "LinkedIn")) = true) := by
  constructor
  · intro t l o
    cases o with
    | raised => exact ⟨sample_timesjobs_ne_nil t l, sample_timesjobs_sources t l⟩
    | status code cards =>
      unfold search_timesjobs
      dsimp only
      by_cases hcode : code = 200
      · rw [if_pos hcode]
        split
        · exact ⟨sample_timesjobs_ne_nil t l, sample_timesjobs_sources t l⟩
        · rename_i hne
          refine ⟨hne, ?_⟩
          rw [List.all_eq_true]
          intro x hx
          rcases List.mem_filterMap.mp hx with ⟨c, -, hc⟩
          obtain ⟨rfl, -, -⟩ := parse_times_some c x hc
          simp
      · rw [if_neg hcode, if_pos rfl]
        exact ⟨sample_timesjobs_ne_nil t l, sample_timesjobs_sources t l⟩
  · intro t l
    exact ⟨sample_linkedin_ne_nil t, sample_linkedin_sources t⟩

/-- Witness for C8 at concrete raised-exception fetches. -/
theorem extractor_fallback_contract_witness :
    search_timesjobs "Data Analyst" "India" FetchOutcome.raised ≠ [] ∧
    (search_linkedin "Data Analyst" "India" FetchOutcome.raised).all
      (fun j => decide (j.source = "LinkedIn")) = true :=
  ⟨(extractor_fallback_contract.1 "Data Analyst" "India" FetchOutcome.raised).1,
   (extractor_fallback_contract.2 "Data Analyst" "India").2⟩

/-- C9: every record of this pipeline carries the `description` key,
which is not in the export's `fieldnames`, so `csv.DictWriter.writerow`
raises `ValueError` instead of writing the rows; for records without the
key (only the live-parsed LinkedIn records) the export does write the
fixed header followed by one row per record in order. -/
theorem save_to_csv_raises_on_description :
    save_to_csv (get_sample_timesjobs "Python Developer" "India") =
      Except.error "dict contains fields not in fieldnames: description" ∧
    save_to_csv [liJob "b1", liJob "b2"] =
      Except.ok [csvFieldnames,
        ["b1", "Acme", "Remote", "Not specified", "Not disclosed",
         "https://www.linkedin.com/x", "LinkedIn"],
        ["b2", "Acme", "Remote", "Not specified", "Not disclosed",
         "https://www.linkedin.com/x", "LinkedIn"]] :=
  ⟨rfl, rfl⟩

/-- C10: the `/search` endpoint rejects a title that is empty after
trimming with HTTP 400; otherwise it answers a successful pipeline run
with the job list and its count, turns any pipeline failure into an HTTP
500 error response instead of propagating it, and a missing `location`
behaves exactly like `location = "India"`. -/
theorem search_endpoint_contract (req : SearchRequest)
    (pl : String → String → Except String (List Job)) :
    (pyStrip (req.job_title.getD "") = "" →
      search_endpoint req pl = WebResponse.clientError 400 "Job title is required") ∧
    (∀ jobs, pyStrip (req.job_title.getD "") ≠ "" →
      pl (pyStrip (req.job_title.getD "")) (pyStrip (req.location.getD "India")) =
        Except.ok jobs →
      search_endpoint req pl = WebResponse.okJobs jobs jobs.length) ∧
    (∀ e, pyStrip (req.job_title.getD "") ≠ "" →
      pl (pyStrip (req.job_title.getD "")) (pyStrip (req.location.getD "India")) =
        Except.error e →
      search_endpoint req pl = WebResponse.serverError 500 e) ∧
    (req.location = none →
      search_endpoint req pl = search_endpoint { req with location := some "India" } pl) := by
  refine ⟨?_, ?_, ?_, ?_⟩
  · intro h
    unfold search_endpoint
    rw [if_pos h]
  · intro jobs h hok
    unfold search_endpoint
    rw [if_neg h, hok]
  · intro e h herr
    unfold search_endpoint
    rw [if_neg h, herr]
  · intro hloc
    unfold search_endpoint
    simp [hloc]

/-- Witness for C10 at a concrete whitespace-only-title request. -/
theorem search_endpoint_contract_witness :
    search_endpoint reqBlankTitle okPipeline =
      WebResponse.clientError 400 "Job title is required" :=
  (search_endpoint_contract reqBlankTitle okPipeline).1 (by decide)
